import Mathlib

/-!
Shallow embedding of the `reson` terminal dashboard's navigation core
(src/app.rs, src/layout.rs, src/processes.rs, src/disk.rs, src/network.rs).

Conventions of the embedding:
* Rust `usize`/`u64`/`u16` values are modelled as `Nat`.  Arithmetic that
  Rust performs unchecked and that can underflow or overflow where it
  matters is modelled explicitly: a plain `a - b` on an unsigned integer
  (which panics on underflow in debug builds) is modelled by `checkedSub`
  returning `Option Nat`; an unchecked `u64` addition that can overflow
  on in-domain counters (the network comparator sums and the totals
  fold) is modelled by `checkedAdd64`; the `u16` addition inside the hit test is
  modelled wrapping modulo `2 ^ 16` (release semantics; debug builds
  abort there, so either way the mathematical sum is not what is computed
  once it exceeds `65535`).  `saturating_add`/`saturating_sub`/`clamp`
  are total and keep their Rust meaning (`Nat` subtraction is truncated,
  matching `saturating_sub`).
* Floating-point quantities (`f32`/`f64` CPU percentages and scores) only
  feed comparison-based sorting; they are modelled by exact rationals,
  which keeps every such computation total.
* Widget construction (styles, borders, strings) has no effect on the
  application state; widget values are modelled by the data that reaches
  them (visible rows, computed scroll bounds, scroll offsets).
-/

/-- Rust unsigned subtraction `a - b`: defined only when `b ≤ a`
(underflow is a panic in debug builds, hence a failure). -/
def checkedSub (a b : Nat) : Option Nat :=
  if b ≤ a then some (a - b) else none

/-- Model of ratatui's `ScrollbarState`: the indicator state handed to the
scrollbar widget.  Only the fields the program writes are tracked. -/
structure ScrollbarState where
  contentLength : Nat
  position : Nat
deriving DecidableEq, Repr

/-- ratatui builder `ScrollbarState::new(content_length)`. -/
def ScrollbarState.new (n : Nat) : ScrollbarState :=
  { contentLength := n, position := 0 }

/-- ratatui builder `ScrollbarState::position(pos)`. -/
def ScrollbarState.setPosition (s : ScrollbarState) (p : Nat) : ScrollbarState :=
  { s with position := p }

/-- ratatui builder `ScrollbarState::content_length(n)`. -/
def ScrollbarState.setContentLength (s : ScrollbarState) (n : Nat) : ScrollbarState :=
  { s with contentLength := n }

/-- `HorizontalScrollbarState` from src/app.rs (CPU panel viewport). -/
structure HorizontalScrollbarState where
  state : ScrollbarState
  pos : Nat
  max_scroll : Nat
  real_content_length : Nat
deriving DecidableEq, Repr

/-- `HorizontalScrollbarState::current_pos_scroll_update`:
`self.state = self.state.position(self.pos * (self.real_content_length / self.max_scroll))`
guarded by `max_scroll == 0`.  The division is integer (floor) division and
is applied to the ratio before the multiplication, exactly as the source
parenthesises it. -/
def HorizontalScrollbarState.current_pos_scroll_update
    (s : HorizontalScrollbarState) : HorizontalScrollbarState :=
  if s.max_scroll = 0 then s
  else { s with state := s.state.setPosition (s.pos * (s.real_content_length / s.max_scroll)) }

/-- `HorizontalScrollbarState::scroll_next`:
`self.pos = self.pos.saturating_add(1).clamp(0, self.max_scroll)` guarded by
`max_scroll == 0`; on `Nat` the saturating add followed by the clamp is
`min (pos + 1) max_scroll`. -/
def HorizontalScrollbarState.scroll_next
    (s : HorizontalScrollbarState) : HorizontalScrollbarState :=
  if s.max_scroll = 0 then s
  else ({ s with pos := min (s.pos + 1) s.max_scroll }).current_pos_scroll_update

/-- `HorizontalScrollbarState::scroll_prev`:
`self.pos = self.pos.saturating_sub(1)` guarded by `max_scroll == 0`. -/
def HorizontalScrollbarState.scroll_prev
    (s : HorizontalScrollbarState) : HorizontalScrollbarState :=
  if s.max_scroll = 0 then s
  else ({ s with pos := s.pos - 1 }).current_pos_scroll_update

/-- `HorizontalScrollbarState::set_values`. -/
def HorizontalScrollbarState.set_values
    (s : HorizontalScrollbarState) (max_scroll real_content_length : Nat) :
    HorizontalScrollbarState :=
  { s with
    max_scroll := max_scroll
    real_content_length := real_content_length
    state := s.state.setContentLength real_content_length }

/-- `VerticalScrollbarState` from src/app.rs (processes / disks / networks
panel viewports). -/
structure VerticalScrollbarState where
  state : ScrollbarState
  pos : Nat
  max_scroll : Nat
deriving DecidableEq, Repr

/-- `VerticalScrollbarState::current_pos_scroll_update`:
`self.state = self.state.position(self.pos)` guarded by `max_scroll == 0`. -/
def VerticalScrollbarState.current_pos_scroll_update
    (s : VerticalScrollbarState) : VerticalScrollbarState :=
  if s.max_scroll = 0 then s
  else { s with state := s.state.setPosition s.pos }

/-- `VerticalScrollbarState::scroll_next`. -/
def VerticalScrollbarState.scroll_next
    (s : VerticalScrollbarState) : VerticalScrollbarState :=
  if s.max_scroll = 0 then s
  else ({ s with pos := min (s.pos + 1) s.max_scroll }).current_pos_scroll_update

/-- `VerticalScrollbarState::scroll_prev`. -/
def VerticalScrollbarState.scroll_prev
    (s : VerticalScrollbarState) : VerticalScrollbarState :=
  if s.max_scroll = 0 then s
  else ({ s with pos := s.pos - 1 }).current_pos_scroll_update

/-- `VerticalScrollbarState::set_values`. -/
def VerticalScrollbarState.set_values
    (s : VerticalScrollbarState) (max_scroll : Nat) : VerticalScrollbarState :=
  { s with
    max_scroll := max_scroll
    state := s.state.setContentLength max_scroll }

/-- A scroll call on a viewport: `scroll_next` or `scroll_prev`. -/
inductive ScrollOp where
  | next
  | prev
deriving DecidableEq, Repr

/-- Apply a finite sequence of scroll calls to a vertical viewport. -/
def VerticalScrollbarState.applyOps
    (s : VerticalScrollbarState) : List ScrollOp → VerticalScrollbarState
  | [] => s
  | .next :: rest => s.scroll_next.applyOps rest
  | .prev :: rest => s.scroll_prev.applyOps rest

/-- Apply a finite sequence of scroll calls to the horizontal viewport. -/
def HorizontalScrollbarState.applyOps
    (s : HorizontalScrollbarState) : List ScrollOp → HorizontalScrollbarState
  | [] => s
  | .next :: rest => s.scroll_next.applyOps rest
  | .prev :: rest => s.scroll_prev.applyOps rest

/-- `AppState` from src/app.rs. -/
inductive AppState where
  | Running
  | Exiting
deriving DecidableEq, Repr

/-- `SelectedTab` from src/app.rs (focus target). -/
inductive SelectedTab where
  | Cpu
  | Processes
  | Disks
  | Networks
  | None
deriving DecidableEq, Repr

/-- `SelectedTab::next`. -/
def SelectedTab.next : SelectedTab → SelectedTab
  | .Cpu => .Processes
  | .Processes => .Disks
  | .Disks => .Networks
  | .Networks => .None
  | .None => .Cpu

/-- `SelectedTab::prev`. -/
def SelectedTab.prev : SelectedTab → SelectedTab
  | .None => .Networks
  | .Cpu => .None
  | .Processes => .Cpu
  | .Disks => .Processes
  | .Networks => .Disks

/-- `SelectedTab::is_cpu`. -/
def SelectedTab.is_cpu : SelectedTab → Bool
  | .Cpu => true
  | _ => false

/-- `SelectedTab::is_processes`. -/
def SelectedTab.is_processes : SelectedTab → Bool
  | .Processes => true
  | _ => false

/-- `SelectedTab::is_network`. -/
def SelectedTab.is_network : SelectedTab → Bool
  | .Networks => true
  | _ => false

/-- `SelectedTab::is_disks`. -/
def SelectedTab.is_disks : SelectedTab → Bool
  | .Disks => true
  | _ => false

/-- `ProcessColumn` from src/processes.rs. -/
inductive ProcessColumn where
  | User
  | PID
  | PPID
  | CPU
  | Memory
  | Time
  | Command
deriving DecidableEq, Repr

/-- `SortDirection` from src/processes.rs. -/
inductive SortDirection where
  | Ascending
  | Descending
deriving DecidableEq, Repr

/-- ratatui `Rect`; the four fields are `u16` in the source, so a rectangle
is meaningful when each field is below `2 ^ 16`. -/
structure Rect where
  x : Nat
  y : Nat
  width : Nat
  height : Nat
deriving DecidableEq, Repr

/-- `Rect::default()`: the all-zero rectangle. -/
def Rect.default : Rect := ⟨0, 0, 0, 0⟩

/-- `is_within_rect` from src/layout.rs:
`x >= rect.x && x < rect.x + rect.width && y >= rect.y && y < rect.y + rect.height`.
The two sums are `u16` additions, hence wrap modulo `2 ^ 16` (release
semantics; in debug builds an overflowing sum aborts instead). -/
def is_within_rect (pos : Nat × Nat) (rect : Rect) : Bool :=
  decide (rect.x ≤ pos.1) && decide (pos.1 < (rect.x + rect.width) % 65536) &&
  decide (rect.y ≤ pos.2) && decide (pos.2 < (rect.y + rect.height) % 65536)

/-- `MemoryLayout` from src/layout.rs. -/
structure MemoryLayout where
  ram_layout : Rect
  swap_layout : Rect
deriving DecidableEq, Repr

/-- `CpuMemoryLayout` from src/layout.rs. -/
structure CpuMemoryLayout where
  cpu_layout : Rect
  memory_layout : MemoryLayout
deriving DecidableEq, Repr

/-- `MainLayout` from src/layout.rs. -/
structure MainLayout where
  cpu_plus_memory_layout : CpuMemoryLayout
  processes_layout : Rect
  disk_layout : Rect
  network_layout : Rect
deriving DecidableEq, Repr

/-- `AppLayout` from src/layout.rs. -/
structure AppLayout where
  main_layout : MainLayout
  footer_area : Rect
deriving DecidableEq, Repr

/-- `AppLayout::empty`. -/
def AppLayout.empty : AppLayout :=
  { main_layout :=
      { cpu_plus_memory_layout :=
          { cpu_layout := Rect.default
            memory_layout := { ram_layout := Rect.default, swap_layout := Rect.default } }
        processes_layout := Rect.default
        disk_layout := Rect.default
        network_layout := Rect.default }
    footer_area := Rect.default }

/-- The key codes `App::handle_events` distinguishes; every other key is
collected in `other` (the `_ => {}` arm). -/
inductive KeyCode where
  | char : Char → KeyCode
  | right
  | left
  | down
  | up
  | tab
  | backTab
  | other
deriving DecidableEq, Repr

/-- `MouseScrollDirection` from src/app.rs. -/
inductive MouseScrollDirection where
  | Up
  | Down
  | Left
  | Right
deriving DecidableEq, Repr

/-- `InputMessage` from src/app.rs. -/
inductive InputMessage where
  | KeyPress : KeyCode → InputMessage
  | MouseScroll : MouseScrollDirection → InputMessage
  | MouseMoved : Nat × Nat → InputMessage
  | Quit
deriving DecidableEq, Repr

/-- The `App` state from src/app.rs (the fields the dispatcher mutates). -/
structure App where
  state : AppState
  layout_clone : AppLayout
  selected_tab : SelectedTab
  cpu_scrollbar_state : HorizontalScrollbarState
  processes_scrollbar_state : VerticalScrollbarState
  process_sort_state : Option (ProcessColumn × SortDirection)
  disks_scrollbar_state : VerticalScrollbarState
  networks_scrollbar_state : VerticalScrollbarState
deriving DecidableEq, Repr

/-- `App::new`. -/
def App.new : App :=
  { state := .Running
    layout_clone := AppLayout.empty
    selected_tab := .None
    cpu_scrollbar_state :=
      { state := ScrollbarState.new 0, pos := 0, max_scroll := 0, real_content_length := 0 }
    processes_scrollbar_state := { state := ScrollbarState.new 0, pos := 0, max_scroll := 0 }
    process_sort_state := none
    disks_scrollbar_state := { state := ScrollbarState.new 0, pos := 0, max_scroll := 0 }
    networks_scrollbar_state := { state := ScrollbarState.new 0, pos := 0, max_scroll := 0 } }

/-- `App::scroll_right`. -/
def App.scroll_right (a : App) : App :=
  if a.selected_tab.is_cpu then
    { a with cpu_scrollbar_state := a.cpu_scrollbar_state.scroll_next }
  else a

/-- `App::scroll_left`. -/
def App.scroll_left (a : App) : App :=
  if a.selected_tab.is_cpu then
    { a with cpu_scrollbar_state := a.cpu_scrollbar_state.scroll_prev }
  else a

/-- `App::scroll_down`. -/
def App.scroll_down (a : App) : App :=
  if a.selected_tab.is_processes then
    { a with processes_scrollbar_state := a.processes_scrollbar_state.scroll_next }
  else if a.selected_tab.is_disks then
    { a with disks_scrollbar_state := a.disks_scrollbar_state.scroll_next }
  else if a.selected_tab.is_network then
    { a with networks_scrollbar_state := a.networks_scrollbar_state.scroll_next }
  else a

/-- `App::scroll_up`. -/
def App.scroll_up (a : App) : App :=
  if a.selected_tab.is_processes then
    { a with processes_scrollbar_state := a.processes_scrollbar_state.scroll_prev }
  else if a.selected_tab.is_disks then
    { a with disks_scrollbar_state := a.disks_scrollbar_state.scroll_prev }
  else if a.selected_tab.is_network then
    { a with networks_scrollbar_state := a.networks_scrollbar_state.scroll_prev }
  else a

/-- `App::next_tab`. -/
def App.next_tab (a : App) : App :=
  { a with selected_tab := a.selected_tab.next }

/-- `App::prev_tab`. -/
def App.prev_tab (a : App) : App :=
  { a with selected_tab := a.selected_tab.prev }

/-- `App::quit`. -/
def App.quit (a : App) : App :=
  { a with state := .Exiting }

/-- `App::toggle_sort_column`: the guarded match on `process_sort_state`
(a failed `current_column == column` guard falls through to the `_` arm). -/
def App.toggle_sort_column (a : App) (column : ProcessColumn) : App :=
  match a.process_sort_state with
  | some (current_column, direction) =>
    if current_column = column then
      match direction with
      | .Ascending => { a with process_sort_state := some (column, .Descending) }
      | .Descending => { a with process_sort_state := none }
    else { a with process_sort_state := some (column, .Ascending) }
  | none => { a with process_sort_state := some (column, .Ascending) }

/-- `App::handle_mouse_moved`: priority hit test against the cached layout. -/
def App.handle_mouse_moved (a : App) (position : Nat × Nat) : App :=
  if is_within_rect position a.layout_clone.main_layout.cpu_plus_memory_layout.cpu_layout then
    { a with selected_tab := .Cpu }
  else if is_within_rect position a.layout_clone.main_layout.processes_layout then
    { a with selected_tab := .Processes }
  else if is_within_rect position a.layout_clone.main_layout.disk_layout then
    { a with selected_tab := .Disks }
  else if is_within_rect position a.layout_clone.main_layout.network_layout then
    { a with selected_tab := .Networks }
  else { a with selected_tab := .None }

/-- The `KeyPress` arm of `App::handle_events`: the ordered match on the
key code, with the `if self.selected_tab.is_processes()` guards of the
digit and `r` arms (a failed guard falls through to `_ => {}`). -/
def App.handle_key (a : App) (code : KeyCode) : App :=
  if code = .char 'l' ∨ code = .right then a.scroll_right
  else if code = .char 'h' ∨ code = .left then a.scroll_left
  else if code = .char 'j' ∨ code = .down then a.scroll_down
  else if code = .char 'k' ∨ code = .up then a.scroll_up
  else if code = .tab then a.next_tab
  else if code = .backTab then a.prev_tab
  else if code = .char '1' ∧ a.selected_tab.is_processes then a.toggle_sort_column .User
  else if code = .char '2' ∧ a.selected_tab.is_processes then a.toggle_sort_column .PID
  else if code = .char '3' ∧ a.selected_tab.is_processes then a.toggle_sort_column .PPID
  else if code = .char '4' ∧ a.selected_tab.is_processes then a.toggle_sort_column .CPU
  else if code = .char '5' ∧ a.selected_tab.is_processes then a.toggle_sort_column .Memory
  else if code = .char '6' ∧ a.selected_tab.is_processes then a.toggle_sort_column .Time
  else if code = .char '7' ∧ a.selected_tab.is_processes then a.toggle_sort_column .Command
  else if code = .char 'r' ∧ a.selected_tab.is_processes then
    { a with process_sort_state := none }
  else a

/-- `App::handle_events`. -/
def App.handle_events (a : App) (message : InputMessage) : App :=
  match message with
  | .KeyPress code => a.handle_key code
  | .MouseScroll direction =>
    match direction with
    | .Up => a.scroll_up
    | .Down => a.scroll_down
    | .Left => a.scroll_left
    | .Right => a.scroll_right
  | .MouseMoved position => a.handle_mouse_moved position
  | .Quit => a.quit

/-- One process entry of the sysinfo snapshot, as read by
`create_processes_table` (src/processes.rs).  `user_name` is the result of
`user_id().and_then(get_user_by_id)` (`none` renders as `"unknown"`);
`cpu_usage` is the `f32` percentage, modelled as an exact rational. -/
structure ProcessInfo where
  user_name : Option String
  pid : Nat
  ppid : Option Nat
  cpu_usage : Rat
  memory : Nat
  start_time : Nat
  run_time : Nat
  name : String
deriving DecidableEq, Repr

/-- The comparison `create_processes_table` sorts with, as a `≤`-style
boolean relation (Rust's `sort_by` receives the corresponding `Ordering`).
The `None` arm is the default composite ordering: descending by
`cpu_usage + memory / total_memory * 100`, with the `f64` arithmetic
modelled exactly over `Rat`. -/
def processOrder (total_memory : Nat)
    (sort_by : Option (ProcessColumn × SortDirection))
    (a b : ProcessInfo) : Bool :=
  match sort_by with
  | some (.User, direction) =>
    let a_user := a.user_name.getD "unknown"
    let b_user := b.user_name.getD "unknown"
    match direction with
    | .Ascending => decide (a_user ≤ b_user)
    | .Descending => decide (b_user ≤ a_user)
  | some (.PID, direction) =>
    match direction with
    | .Ascending => decide (a.pid ≤ b.pid)
    | .Descending => decide (b.pid ≤ a.pid)
  | some (.PPID, direction) =>
    match direction with
    | .Ascending => decide (compare a.ppid b.ppid ≠ .gt)
    | .Descending => decide (compare b.ppid a.ppid ≠ .gt)
  | some (.CPU, direction) =>
    match direction with
    | .Ascending => decide (a.cpu_usage ≤ b.cpu_usage)
    | .Descending => decide (b.cpu_usage ≤ a.cpu_usage)
  | some (.Memory, direction) =>
    match direction with
    | .Ascending => decide (a.memory ≤ b.memory)
    | .Descending => decide (b.memory ≤ a.memory)
  | some (.Time, direction) =>
    match direction with
    | .Ascending => decide (a.start_time ≤ b.start_time)
    | .Descending => decide (b.start_time ≤ a.start_time)
  | some (.Command, direction) =>
    match direction with
    | .Ascending => decide (a.name ≤ b.name)
    | .Descending => decide (b.name ≤ a.name)
  | none =>
    let a_combined := a.cpu_usage + ((a.memory : Rat) / (total_memory : Rat)) * 100
    let b_combined := b.cpu_usage + ((b.memory : Rat) / (total_memory : Rat)) * 100
    decide (b_combined ≤ a_combined)

/-- `ProcessesTable` (src/processes.rs): the data the built table carries —
the visible rows (after the sort, the `skip(scroll_position)` and the
`take(visible_lines)`) and the computed `max_scroll`. -/
structure ProcessesTable where
  rows : List ProcessInfo
  max_scroll : Nat
deriving DecidableEq, Repr

/-- `create_processes_table` (src/processes.rs).  `visible_lines` is the
unchecked `layout_height - 2`, so the whole computation is defined only
when `2 ≤ layout_height`; `max_scroll` is
`all_lines_count.saturating_sub(visible_lines)`.  `is_selected` only feeds
the highlight style and does not affect the carried data. -/
def create_processes_table (procs : List ProcessInfo) (total_memory : Nat)
    (layout_height scroll_position : Nat) (_is_selected : Bool)
    (sort_by : Option (ProcessColumn × SortDirection)) : Option ProcessesTable :=
  (checkedSub layout_height 2).map fun visible_lines =>
    let processes := procs.mergeSort (processOrder total_memory sort_by)
    let rows := (processes.drop scroll_position).take visible_lines
    let all_lines_count := processes.length
    let max_scroll := all_lines_count - visible_lines
    { rows := rows, max_scroll := max_scroll }

/-- One disk entry of the sysinfo snapshot, as read by
`create_disks_widget` (src/disk.rs). -/
structure DiskInfo where
  name : String
  total_space : Nat
  available_space : Nat
deriving DecidableEq, Repr

/-- One rendered disk line of `create_disks_widget`: the values that feed
the `format!` call, in order (index, name, free %, free GB, used %, used
GB, total GB).  The `f64` percentages truncated by the `as u64` cast are
modelled by exact floor division (a zero `total_space` yields 0, matching
the `NaN as u64` saturating cast, since then `used = 0`). -/
structure DiskLine where
  index : Nat
  name : String
  free_percentage : Nat
  free_gb : Nat
  usage_percentage : Nat
  used_gb : Nat
  total_gb : Nat
deriving DecidableEq, Repr

/-- The `u64` subtraction `disk.total_space() - disk.available_space()`
(underflows when a snapshot reports more available than total space). -/
def diskUsed (d : DiskInfo) : Option Nat :=
  checkedSub d.total_space d.available_space

/-- Collect a per-element computation that can fail, failing as soon as
one element does (the shape of a Rust iterator pipeline in which every
closure application may abort). -/
def traverseOption (f : α → Option β) : List α → Option (List β)
  | [] => some []
  | a :: l => do
    let b ← f a
    let bs ← traverseOption f l
    pure (b :: bs)

/-- The line built for one disk (the closure at src/disk.rs lines 37-53),
defined when its `used` subtraction does not underflow. -/
def diskLine (n : Nat) (d : DiskInfo) : Option DiskLine :=
  (diskUsed d).map fun used =>
    { index := n + 1
      name := d.name
      free_percentage := d.available_space * 100 / d.total_space
      free_gb := d.available_space / 1024 / 1024 / 1024
      usage_percentage := used * 100 / d.total_space
      used_gb := used / 1024 / 1024 / 1024
      total_gb := d.total_space / 1024 / 1024 / 1024 }

/-- `DisksWidget` (src/disk.rs): the data the built paragraph carries —
the sorted disk lines, the computed `max_scroll`, and the scroll offset
passed to `Paragraph::scroll` (a `u16` cast, hence modulo `2 ^ 16`). -/
structure DisksWidget where
  lines : List DiskLine
  max_scroll : Nat
  scroll : Nat
deriving DecidableEq, Repr

/-- The sort of `create_disks_widget`: descending by used space.  The
comparator recomputes the unchecked `used` subtractions; they are checked
once per disk here, which fails exactly when the source computation does
(the per-disk `format!` closure evaluates `used` for every disk). -/
def create_disks_widget (disks : List DiskInfo)
    (layout_height scroll_position : Nat) (_is_selected : Bool) : Option DisksWidget := do
  let visible_lines ← checkedSub layout_height 2
  let withUsed ← traverseOption (fun d => (diskUsed d).map fun u => (d, u)) disks
  let sorted := withUsed.mergeSort fun a b => decide (b.2 ≤ a.2)
  let lines ← traverseOption (fun du => diskLine du.1 du.2.1) sorted.enum
  let all_lines_count := disks.length
  let max_scroll := all_lines_count - visible_lines
  pure { lines := lines, max_scroll := max_scroll, scroll := scroll_position % 65536 }

/-- One network-interface entry of the sysinfo snapshot, as read by
`create_networks_widget` (src/network.rs). -/
structure NetworkInfo where
  name : String
  transmitted : Nat
  received : Nat
  packets_transmitted : Nat
  packets_received : Nat
  mac_address : String
deriving DecidableEq, Repr

/-- `TotalNetworkStats` (src/network.rs). -/
structure TotalNetworkStats where
  transmited_bytes : Nat
  received_bytes : Nat
  transmited_packets : Nat
  received_packets : Nat
deriving DecidableEq, Repr

/-- `NetworksWidget` (src/network.rs): the data the built paragraph
carries — the sorted interface list (each line's `format!` arguments are
drawn from it), the folded totals of the title, the computed `max_scroll`,
and the `u16`-cast scroll offset. -/
structure NetworksWidget where
  lines : List NetworkInfo
  total_stats : TotalNetworkStats
  max_scroll : Nat
  scroll : Nat
deriving DecidableEq, Repr

/-- Rust unchecked `u64` addition `a + b`: defined only when the sum fits
in a `u64`, i.e. is below `2 ^ 64 = 18446744073709551616` (overflow is a
panic in debug builds, hence a failure). -/
def checkedAdd64 (a b : Nat) : Option Nat :=
  if a + b < 18446744073709551616 then some (a + b) else none

/-- The totals fold of `create_networks_widget` (network.rs lines 72-86):
each `+=` is an unchecked `u64` addition on the accumulator, checked here
step by step. -/
def foldNetTotals (stats : TotalNetworkStats) :
    List NetworkInfo → Option TotalNetworkStats
  | [] => some stats
  | d :: rest => do
    let tb ← checkedAdd64 stats.transmited_bytes d.transmitted
    let rb ← checkedAdd64 stats.received_bytes d.received
    let tp ← checkedAdd64 stats.transmited_packets d.packets_transmitted
    let rp ← checkedAdd64 stats.received_packets d.packets_received
    foldNetTotals ⟨tb, rb, tp, rp⟩ rest

/-- `create_networks_widget` (src/network.rs): sort descending by the
combined `transmitted + received`, fold the totals, compute
`max_scroll = all_lines_count.saturating_sub(visible_lines)` where
`visible_lines` is the unchecked `layout_height - 2`.  The comparator
sums (network.rs lines 48-49) are unchecked `u64` additions; they are
checked once per interface here, a conservative rendering of the sort:
with two or more interfaces every interface takes part in at least one
comparison, so an overflowing sum aborts the source computation too
(with fewer the source performs no comparison and cannot overflow
there). -/
def create_networks_widget (networks : List NetworkInfo)
    (layout_height scroll_position : Nat) (_is_selected : Bool) : Option NetworksWidget := do
  let visible_lines ← checkedSub layout_height 2
  let withCombined ← traverseOption
    (fun n => (checkedAdd64 n.transmitted n.received).map fun c => (n, c)) networks
  let sorted := (withCombined.mergeSort fun a b => decide (b.2 ≤ a.2)).map Prod.fst
  let total_stats ← foldNetTotals ⟨0, 0, 0, 0⟩ networks
  let all_lines_count := sorted.length
  let max_scroll := all_lines_count - visible_lines
  pure
    { lines := sorted
      total_stats := total_stats
      max_scroll := max_scroll
      scroll := scroll_position % 65536 }

/-- State effect of `App::render_cpu` (src/app.rs lines 429-458).  The bar
chart built by `create_cpu_barchart` enters through its two computed
values `new_max_scroll` and `new_real_content_length`; drawing the widget
itself does not touch the `App`.  The effect is: the end-of-content
resize correction (decrement `pos` when it sits at the stored `max_scroll`
and the newly computed `max_scroll` shrank), then `set_values`, then
`current_pos_scroll_update`. -/
def App.render_cpu (a : App) (new_max_scroll new_real_content_length : Nat) : App :=
  let s := a.cpu_scrollbar_state
  let s :=
    if s.pos = s.max_scroll ∧ new_max_scroll < s.max_scroll then
      { s with pos := s.pos - 1 }
    else s
  let s := (s.set_values new_max_scroll new_real_content_length).current_pos_scroll_update
  { a with cpu_scrollbar_state := s }

/-- State effect of `App::render_processes` (src/app.rs lines 466-487):
`set_values` with the table's computed `max_scroll`, then
`current_pos_scroll_update`; no resize correction. -/
def App.render_processes (a : App) (new_max_scroll : Nat) : App :=
  { a with
    processes_scrollbar_state :=
      (a.processes_scrollbar_state.set_values new_max_scroll).current_pos_scroll_update }

/-- State effect of `App::render_disks` (src/app.rs lines 489-508):
`set_values` on the disks viewport with the widget's computed
`max_scroll`, then `current_pos_scroll_update` on the **processes**
viewport — the position update is applied to the processes panel's
indicator state, not the disks one, exactly as the source reads. -/
def App.render_disks (a : App) (new_max_scroll : Nat) : App :=
  { a with
    disks_scrollbar_state := a.disks_scrollbar_state.set_values new_max_scroll
    processes_scrollbar_state := a.processes_scrollbar_state.current_pos_scroll_update }

/-- State effect of `App::render_networks` (src/app.rs lines 510-529). -/
def App.render_networks (a : App) (new_max_scroll : Nat) : App :=
  { a with
    networks_scrollbar_state :=
      (a.networks_scrollbar_state.set_values new_max_scroll).current_pos_scroll_update }

/-- The per-frame inputs of `App::draw`: the layout computed by
`prepare_layout` and the scroll bounds the four widget builders compute
from the current sysinfo snapshot and panel sizes. -/
structure FrameData where
  layout : AppLayout
  cpu_max_scroll : Nat
  cpu_real_content_length : Nat
  processes_max_scroll : Nat
  disks_max_scroll : Nat
  networks_max_scroll : Nat
deriving DecidableEq, Repr

/-- State effect of `App::draw` (src/app.rs lines 405-427): cache the
layout, then render the panels in order (the memory gauges and the footer
leave the `App` untouched). -/
def App.draw (a : App) (fd : FrameData) : App :=
  let a := { a with layout_clone := fd.layout }
  let a := a.render_cpu fd.cpu_max_scroll fd.cpu_real_content_length
  let a := a.render_processes fd.processes_max_scroll
  let a := a.render_disks fd.disks_max_scroll
  a.render_networks fd.networks_max_scroll

/-- One wakeup of the `tokio::select!` in `App::run`: a metrics refresh
tick (no `App` mutation), a redraw tick, or a received input message. -/
inductive LoopEvent where
  | refresh
  | draw : FrameData → LoopEvent
  | message : InputMessage → LoopEvent

/-- The dispatcher loop of `App::run`: while the state is `Running`,
service one event per iteration; once the state is `Exiting` the loop
exits and no further event is serviced. -/
def App.runLoop (a : App) : List LoopEvent → App
  | [] => a
  | e :: rest =>
    if a.state = AppState.Running then
      (match e with
        | .refresh => a
        | .draw fd => a.draw fd
        | .message m => a.handle_events m).runLoop rest
    else a

theorem vScrollNextSpec (s : VerticalScrollbarState) :
    s.scroll_next.max_scroll = s.max_scroll ∧
    s.scroll_next.pos = if s.max_scroll = 0 then s.pos else min (s.pos + 1) s.max_scroll := by
  unfold VerticalScrollbarState.scroll_next VerticalScrollbarState.current_pos_scroll_update
  split <;> simp_all

theorem vScrollPrevSpec (s : VerticalScrollbarState) :
    s.scroll_prev.max_scroll = s.max_scroll ∧
    s.scroll_prev.pos = if s.max_scroll = 0 then s.pos else s.pos - 1 := by
  unfold VerticalScrollbarState.scroll_prev VerticalScrollbarState.current_pos_scroll_update
  split <;> simp_all

theorem hScrollNextSpec (s : HorizontalScrollbarState) :
    s.scroll_next.max_scroll = s.max_scroll ∧
    s.scroll_next.pos = if s.max_scroll = 0 then s.pos else min (s.pos + 1) s.max_scroll := by
  unfold HorizontalScrollbarState.scroll_next HorizontalScrollbarState.current_pos_scroll_update
  split <;> simp_all

theorem hScrollPrevSpec (s : HorizontalScrollbarState) :
    s.scroll_prev.max_scroll = s.max_scroll ∧
    s.scroll_prev.pos = if s.max_scroll = 0 then s.pos else s.pos - 1 := by
  unfold HorizontalScrollbarState.scroll_prev HorizontalScrollbarState.current_pos_scroll_update
  split <;> simp_all

/-- C2: for every viewport state (horizontal or vertical) initially
satisfying `0 ≤ position ≤ maxScroll`, after any finite sequence of
`scrollNext`/`scrollPrev` calls the bound `0 ≤ position ≤ maxScroll`
still holds, and `maxScroll` itself is untouched by the scroll calls
(positions are natural numbers, so `0 ≤ position` is automatic). -/
theorem claim_C2_viewport_invariant :
    (∀ (s : VerticalScrollbarState) (ops : List ScrollOp),
      s.pos ≤ s.max_scroll →
      (s.applyOps ops).max_scroll = s.max_scroll ∧ (s.applyOps ops).pos ≤ (s.applyOps ops).max_scroll) ∧
    (∀ (s : HorizontalScrollbarState) (ops : List ScrollOp),
      s.pos ≤ s.max_scroll →
      (s.applyOps ops).max_scroll = s.max_scroll ∧ (s.applyOps ops).pos ≤ (s.applyOps ops).max_scroll) := by
  constructor
  · intro s ops
    induction ops generalizing s with
    | nil => intro h; exact ⟨rfl, h⟩
    | cons op rest ih =>
      intro h
      cases op with
      | next =>
        obtain ⟨hm, hp⟩ := vScrollNextSpec s
        have hle : s.scroll_next.pos ≤ s.scroll_next.max_scroll := by
          rw [hm, hp]; split <;> omega
        obtain ⟨ihm, ihp⟩ := ih s.scroll_next hle
        exact ⟨by rw [VerticalScrollbarState.applyOps, ihm, hm],
               by rw [VerticalScrollbarState.applyOps] at *; exact ihp⟩
      | prev =>
        obtain ⟨hm, hp⟩ := vScrollPrevSpec s
        have hle : s.scroll_prev.pos ≤ s.scroll_prev.max_scroll := by
          rw [hm, hp]; split <;> omega
        obtain ⟨ihm, ihp⟩ := ih s.scroll_prev hle
        exact ⟨by rw [VerticalScrollbarState.applyOps, ihm, hm],
               by rw [VerticalScrollbarState.applyOps] at *; exact ihp⟩
  · intro s ops
    induction ops generalizing s with
    | nil => intro h; exact ⟨rfl, h⟩
    | cons op rest ih =>
      intro h
      cases op with
      | next =>
        obtain ⟨hm, hp⟩ := hScrollNextSpec s
        have hle : s.scroll_next.pos ≤ s.scroll_next.max_scroll := by
          rw [hm, hp]; split <;> omega
        obtain ⟨ihm, ihp⟩ := ih s.scroll_next hle
        exact ⟨by rw [HorizontalScrollbarState.applyOps, ihm, hm],
               by rw [HorizontalScrollbarState.applyOps] at *; exact ihp⟩
      | prev =>
        obtain ⟨hm, hp⟩ := hScrollPrevSpec s
        have hle : s.scroll_prev.pos ≤ s.scroll_prev.max_scroll := by
          rw [hm, hp]; split <;> omega
        obtain ⟨ihm, ihp⟩ := ih s.scroll_prev hle
        exact ⟨by rw [HorizontalScrollbarState.applyOps, ihm, hm],
               by rw [HorizontalScrollbarState.applyOps] at *; exact ihp⟩

/-- Witness for C2 at a concrete viewport: position 3, maxScroll 5,
after the sequence next, next, prev, next the bound holds. -/
theorem claim_C2_viewport_invariant_witness :
    (VerticalScrollbarState.applyOps ⟨⟨0, 0⟩, 3, 5⟩ [.next, .next, .prev, .next]).max_scroll = 5 ∧
    (VerticalScrollbarState.applyOps ⟨⟨0, 0⟩, 3, 5⟩ [.next, .next, .prev, .next]).pos ≤
      (VerticalScrollbarState.applyOps ⟨⟨0, 0⟩, 3, 5⟩ [.next, .next, .prev, .next]).max_scroll := by
  have h := claim_C2_viewport_invariant.1 ⟨⟨0, 0⟩, 3, 5⟩ [.next, .next, .prev, .next] (by decide)
  exact h

/-- C3: scroll step semantics, for both viewport kinds.  When
`maxScroll = 0` both scroll calls leave the whole state unchanged;
otherwise `scrollNext` sets `position` to `position + 1` clamped into
`[0, maxScroll]` (that is, `min (position + 1) maxScroll`) and
`scrollPrev` to `position - 1` floored at 0 (truncated subtraction).  In
particular, from position 0 with `maxScroll = 7`, seven `scrollNext`
calls reach position 7 and an eighth leaves it at 7. -/
theorem claim_C3_scroll_step :
    (∀ s : VerticalScrollbarState,
      (s.max_scroll = 0 → s.scroll_next = s ∧ s.scroll_prev = s) ∧
      (s.max_scroll ≠ 0 →
        s.scroll_next.pos = min (s.pos + 1) s.max_scroll ∧ s.scroll_prev.pos = s.pos - 1)) ∧
    (∀ s : HorizontalScrollbarState,
      (s.max_scroll = 0 → s.scroll_next = s ∧ s.scroll_prev = s) ∧
      (s.max_scroll ≠ 0 →
        s.scroll_next.pos = min (s.pos + 1) s.max_scroll ∧ s.scroll_prev.pos = s.pos - 1)) ∧
    (((VerticalScrollbarState.scroll_next)^[7] ⟨⟨0, 0⟩, 0, 7⟩).pos = 7 ∧
      ((VerticalScrollbarState.scroll_next)^[8] ⟨⟨0, 0⟩, 0, 7⟩).pos = 7) := by
  refine ⟨?_, ?_, by decide⟩
  · intro s
    constructor
    · intro h
      unfold VerticalScrollbarState.scroll_next VerticalScrollbarState.scroll_prev
      rw [if_pos h, if_pos h]; exact ⟨rfl, rfl⟩
    · intro h
      obtain ⟨_, hn⟩ := vScrollNextSpec s
      obtain ⟨_, hp⟩ := vScrollPrevSpec s
      rw [hn, hp, if_neg h, if_neg h]; exact ⟨rfl, rfl⟩
  · intro s
    constructor
    · intro h
      unfold HorizontalScrollbarState.scroll_next HorizontalScrollbarState.scroll_prev
      rw [if_pos h, if_pos h]; exact ⟨rfl, rfl⟩
    · intro h
      obtain ⟨_, hn⟩ := hScrollNextSpec s
      obtain ⟨_, hp⟩ := hScrollPrevSpec s
      rw [hn, hp, if_neg h, if_neg h]; exact ⟨rfl, rfl⟩

/-- Witness for C3: at `maxScroll = 0` the calls are no-ops, and at
`maxScroll = 5`, `pos = 2` the step formulas give 3 and 1. -/
theorem claim_C3_scroll_step_witness :
    (VerticalScrollbarState.scroll_next ⟨⟨0, 0⟩, 2, 0⟩ = ⟨⟨0, 0⟩, 2, 0⟩) ∧
    (VerticalScrollbarState.scroll_next ⟨⟨0, 0⟩, 2, 5⟩).pos = min (2 + 1) 5 ∧
    (VerticalScrollbarState.scroll_prev ⟨⟨0, 0⟩, 2, 5⟩).pos = 2 - 1 ∧
    (HorizontalScrollbarState.scroll_next ⟨⟨0, 0⟩, 2, 5, 40⟩).pos = min (2 + 1) 5 := by
  refine ⟨(claim_C3_scroll_step.1 ⟨⟨0, 0⟩, 2, 0⟩).1 rfl |>.1, ?_, ?_, ?_⟩
  · exact ((claim_C3_scroll_step.1 ⟨⟨0, 0⟩, 2, 5⟩).2 (by decide)).1
  · exact ((claim_C3_scroll_step.1 ⟨⟨0, 0⟩, 2, 5⟩).2 (by decide)).2
  · exact ((claim_C3_scroll_step.2.1 ⟨⟨0, 0⟩, 2, 5, 40⟩).2 (by decide)).1

/-- C6: the focus advance function follows the cyclic order
`Cpu → Processes → Disks → Networks → None → Cpu`, the reverse function is
its exact inverse, and five consecutive `next` calls from `None` return to
`None`. -/
theorem claim_C6_focus_cycle :
    (SelectedTab.Cpu.next = .Processes ∧ SelectedTab.Processes.next = .Disks ∧
      SelectedTab.Disks.next = .Networks ∧ SelectedTab.Networks.next = .None ∧
      SelectedTab.None.next = .Cpu) ∧
    (∀ t : SelectedTab, t.next.prev = t ∧ t.prev.next = t) ∧
    (SelectedTab.next)^[5] SelectedTab.None = SelectedTab.None := by
  refine ⟨⟨rfl, rfl, rfl, rfl, rfl⟩, ?_, by decide⟩
  intro t
  cases t <;> exact ⟨rfl, rfl⟩

/-- C5: the sort toggle is tri-state.  `toggle_sort_column c` yields
`(c, Ascending)` when the current state is absent or targets a different
column, `(c, Descending)` from `(c, Ascending)`, and the cleared state
from `(c, Descending)`; pressing `r` while the Processes panel is focused
clears the state regardless of its current value. -/
theorem claim_C5_sort_toggle :
    ∀ (a : App) (c : ProcessColumn),
      (a.process_sort_state = none →
        (a.toggle_sort_column c).process_sort_state = some (c, .Ascending)) ∧
      (∀ c' d, c' ≠ c → a.process_sort_state = some (c', d) →
        (a.toggle_sort_column c).process_sort_state = some (c, .Ascending)) ∧
      (a.process_sort_state = some (c, .Ascending) →
        (a.toggle_sort_column c).process_sort_state = some (c, .Descending)) ∧
      (a.process_sort_state = some (c, .Descending) →
        (a.toggle_sort_column c).process_sort_state = none) ∧
      (a.selected_tab = .Processes →
        (a.handle_events (.KeyPress (.char 'r'))).process_sort_state = none) := by
  intro a c
  refine ⟨?_, ?_, ?_, ?_, ?_⟩
  · intro h; simp [App.toggle_sort_column, h]
  · intro c' d hne h; simp [App.toggle_sort_column, h, hne]
  · intro h; simp [App.toggle_sort_column, h]
  · intro h; simp [App.toggle_sort_column, h]
  · intro h
    simp only [App.handle_events, App.handle_key]
    norm_num
    simp [h, SelectedTab.is_processes]

/-- Witness for C5: the toggle sequence
cleared → (CPU, Asc) → (CPU, Desc) → cleared and `toggle(PID)` from
cleared, plus the `r` reset from a populated state. -/
theorem claim_C5_sort_toggle_witness :
    ((App.new.toggle_sort_column .CPU).process_sort_state = some (.CPU, .Ascending)) ∧
    (({ App.new with process_sort_state := some (.CPU, .Ascending) }.toggle_sort_column
        .CPU).process_sort_state = some (.CPU, .Descending)) ∧
    (({ App.new with process_sort_state := some (.CPU, .Descending) }.toggle_sort_column
        .CPU).process_sort_state = none) ∧
    ((App.new.toggle_sort_column .PID).process_sort_state = some (.PID, .Ascending)) ∧
    (({ App.new with
          selected_tab := .Processes
          process_sort_state := some (.Time, .Descending) }.handle_events
        (.KeyPress (.char 'r'))).process_sort_state = none) := by
  refine ⟨(claim_C5_sort_toggle App.new .CPU).1 rfl, ?_, ?_, (claim_C5_sort_toggle App.new .PID).1 rfl, ?_⟩
  · exact (claim_C5_sort_toggle _ .CPU).2.2.1 rfl
  · exact (claim_C5_sort_toggle _ .CPU).2.2.2.1 rfl
  · exact (claim_C5_sort_toggle _ .CPU).2.2.2.2 rfl

/-- C9 as stated fails on the horizontal mapping: with `position = 2`,
`maxScroll = 2`, `realContentLength = 3`, the code computes the thumb
offset `2 * (3 / 2) = 2`, while the exact proportional value
`2 * 3 / 2` is 3. -/
theorem claim_C9_counterexample :
    (HorizontalScrollbarState.current_pos_scroll_update ⟨⟨0, 0⟩, 2, 2, 3⟩).state.position = 2 ∧
    2 * 3 / 2 = 3 ∧ (2 : Nat) ≠ 3 := by decide

/-- C9 amended: for a vertical viewport with `maxScroll > 0` the displayed
thumb offset equals `position` exactly (1:1); for the horizontal CPU
viewport with `maxScroll > 0` it equals `position` multiplied by the
floor-divided ratio `realContentLength / maxScroll` (the division is
performed first, so the scaling is not the exact proportional
`position × realContentLength / maxScroll` unless `maxScroll` divides
`realContentLength`). -/
theorem claim_C9_amended :
    ∀ (hs : HorizontalScrollbarState) (vs : VerticalScrollbarState),
      0 < hs.max_scroll → 0 < vs.max_scroll →
      vs.current_pos_scroll_update.state.position = vs.pos ∧
      hs.current_pos_scroll_update.state.position =
        hs.pos * (hs.real_content_length / hs.max_scroll) := by
  intro hs vs h1 h2
  constructor
  · unfold VerticalScrollbarState.current_pos_scroll_update
    rw [if_neg (by omega)]; rfl
  · unfold HorizontalScrollbarState.current_pos_scroll_update
    rw [if_neg (by omega)]; rfl

/-- Witness for C9 at a concrete pair of viewports with positive bounds. -/
theorem claim_C9_amended_witness :
    (VerticalScrollbarState.current_pos_scroll_update ⟨⟨9, 0⟩, 4, 9⟩).state.position = 4 ∧
    (HorizontalScrollbarState.current_pos_scroll_update ⟨⟨40, 0⟩, 3, 5, 40⟩).state.position =
      3 * (40 / 5) := by
  have h := claim_C9_amended ⟨⟨40, 0⟩, 3, 5, 40⟩ ⟨⟨9, 0⟩, 4, 9⟩ (by decide) (by decide)
  exact h

/-- C8 as stated fails once the `u16` sum `x + width` exceeds 65535: the
point `(65535, 0)` lies inside the rectangle
`{x := 65535, y := 0, width := 2, height := 1}` in the mathematical
half-open reading (`65535 ≤ 65535 < 65535 + 2` and `0 ≤ 0 < 1`), but the
wrapped sum is `65537 % 65536 = 1` and the hit test returns `false`. -/
theorem claim_C8_counterexample :
    is_within_rect (65535, 0) ⟨65535, 0, 2, 1⟩ = false ∧
    65535 ≤ 65535 ∧ 65535 < 65535 + 2 ∧ 0 ≤ 0 ∧ (0 : Nat) < 1 := by decide

/-- C8 amended: for every rectangle whose `u16` sums do not overflow
(`x + width < 2 ^ 16` and `y + height < 2 ^ 16`, which every
layout-produced rectangle satisfies), the hit test is exactly the
half-open box test: true iff `x ≤ px < x + width` and
`y ≤ py < y + height`; the top-left corner of a non-empty rectangle is
inside, `(x + width, y)` is outside, and two horizontally adjacent
rectangles never both claim a point. -/
theorem claim_C8_amended :
    ∀ (px py : Nat) (r : Rect),
      r.x + r.width < 65536 → r.y + r.height < 65536 →
      (is_within_rect (px, py) r = true ↔
        (r.x ≤ px ∧ px < r.x + r.width ∧ r.y ≤ py ∧ py < r.y + r.height)) ∧
      (0 < r.width → 0 < r.height → is_within_rect (r.x, r.y) r = true) ∧
      (is_within_rect (r.x + r.width, r.y) r = false) ∧
      (∀ r2 : Rect, r2.x = r.x + r.width → r2.x + r2.width < 65536 →
        r2.y + r2.height < 65536 →
        ¬(is_within_rect (px, py) r = true ∧ is_within_rect (px, py) r2 = true)) := by
  intro px py r h1 h2
  have key : ∀ (qx qy : Nat) (s : Rect), s.x + s.width < 65536 → s.y + s.height < 65536 →
      (is_within_rect (qx, qy) s = true ↔
        (s.x ≤ qx ∧ qx < s.x + s.width ∧ s.y ≤ qy ∧ qy < s.y + s.height)) := by
    intro qx qy s hs1 hs2
    unfold is_within_rect
    rw [Nat.mod_eq_of_lt hs1, Nat.mod_eq_of_lt hs2]
    simp [and_assoc]
  refine ⟨key px py r h1 h2, ?_, ?_, ?_⟩
  · intro hw hh
    rw [key r.x r.y r h1 h2]
    omega
  · have h := key (r.x + r.width) r.y r h1 h2
    rcases hb : is_within_rect (r.x + r.width, r.y) r with _ | _
    · rfl
    · exfalso; have := h.mp hb; omega
  · intro r2 hadj ha1 ha2 ⟨hin1, hin2⟩
    have e1 := (key px py r h1 h2).mp hin1
    have e2 := (key px py r2 ha1 ha2).mp hin2
    omega

theorem hSetValuesPos (s : HorizontalScrollbarState) (m r : Nat) :
    (s.set_values m r).pos = s.pos := rfl

theorem hUpdatePos (s : HorizontalScrollbarState) :
    s.current_pos_scroll_update.pos = s.pos := by
  unfold HorizontalScrollbarState.current_pos_scroll_update
  split <;> rfl

theorem vSetValuesPos (s : VerticalScrollbarState) (m : Nat) :
    (s.set_values m).pos = s.pos := rfl

theorem vUpdatePos (s : VerticalScrollbarState) :
    s.current_pos_scroll_update.pos = s.pos := by
  unfold VerticalScrollbarState.current_pos_scroll_update
  split <;> rfl

/-- C4 as stated fails for the Processes panel (and likewise Disks and
Networks): with the processes viewport at `position = 10`, stored
`maxScroll = 10`, a frame whose table computes `maxScroll = 8` leaves
`position` at 10 — no decrement is applied there; the correction exists
only in the CPU render. -/
theorem claim_C4_counterexample :
    ((App.render_processes
        { App.new with processes_scrollbar_state := ⟨⟨0, 0⟩, 10, 10⟩ }
        8).processes_scrollbar_state.pos = 10) ∧
    ((App.render_disks
        { App.new with disks_scrollbar_state := ⟨⟨0, 0⟩, 10, 10⟩ }
        8).disks_scrollbar_state.pos = 10) ∧
    ((App.render_networks
        { App.new with networks_scrollbar_state := ⟨⟨0, 0⟩, 10, 10⟩ }
        8).networks_scrollbar_state.pos = 10) ∧
    (10 : Nat) ≠ 9 := by decide

/-- C4 amended: the end-of-content resize correction exists only in the
CPU panel's render: there, when the newly computed `maxScroll` is
strictly smaller than the stored one while `position` sits exactly at the
stored `maxScroll`, the render decrements `position` by exactly 1 (not
snapped to the new `maxScroll`); the Processes, Disks and Networks
renders never change their viewport's `position`. -/
theorem claim_C4_amended :
    ∀ (a : App) (new_max new_rcl : Nat),
      (a.cpu_scrollbar_state.pos = a.cpu_scrollbar_state.max_scroll →
        new_max < a.cpu_scrollbar_state.max_scroll →
        (a.render_cpu new_max new_rcl).cpu_scrollbar_state.pos =
          a.cpu_scrollbar_state.pos - 1) ∧
      ((a.render_processes new_max).processes_scrollbar_state.pos =
        a.processes_scrollbar_state.pos) ∧
      ((a.render_disks new_max).disks_scrollbar_state.pos = a.disks_scrollbar_state.pos) ∧
      ((a.render_networks new_max).networks_scrollbar_state.pos =
        a.networks_scrollbar_state.pos) := by
  intro a new_max new_rcl
  refine ⟨?_, ?_, ?_, ?_⟩
  · intro hpos hlt
    unfold App.render_cpu
    dsimp only
    rw [if_pos ⟨hpos, hlt⟩, hUpdatePos, hSetValuesPos]
  · unfold App.render_processes
    dsimp only
    rw [vUpdatePos, vSetValuesPos]
  · rfl
  · unfold App.render_networks
    dsimp only
    rw [vUpdatePos, vSetValuesPos]

/-- Witness for C4: `position = 10`, stored `maxScroll = 10`, newly
computed `maxScroll = 8` yields corrected CPU `position = 9`. -/
theorem claim_C4_amended_witness :
    ((App.render_cpu { App.new with cpu_scrollbar_state := ⟨⟨0, 0⟩, 10, 10, 40⟩ } 8
        20).cpu_scrollbar_state.pos = 10 - 1) ∧
    ((App.render_processes { App.new with processes_scrollbar_state := ⟨⟨0, 0⟩, 10, 10⟩ }
        8).processes_scrollbar_state.pos = 10) := by
  have h := claim_C4_amended
    { App.new with cpu_scrollbar_state := ⟨⟨0, 0⟩, 10, 10, 40⟩ } 8 20
  have h2 := claim_C4_amended
    { App.new with processes_scrollbar_state := ⟨⟨0, 0⟩, 10, 10⟩ } 8 0
  exact ⟨h.1 rfl (by decide), h2.2.1⟩

theorem scrollRightState (a : App) : a.scroll_right.state = a.state := by
  unfold App.scroll_right; split <;> rfl

theorem scrollLeftState (a : App) : a.scroll_left.state = a.state := by
  unfold App.scroll_left; split <;> rfl

theorem scrollDownState (a : App) : a.scroll_down.state = a.state := by
  unfold App.scroll_down
  split
  · rfl
  · split
    · rfl
    · split <;> rfl

theorem scrollUpState (a : App) : a.scroll_up.state = a.state := by
  unfold App.scroll_up
  split
  · rfl
  · split
    · rfl
    · split <;> rfl

theorem toggleSortState (a : App) (c : ProcessColumn) :
    (a.toggle_sort_column c).state = a.state := by
  unfold App.toggle_sort_column
  split
  · split
    · split <;> rfl
    · rfl
  · rfl

theorem mouseMovedState (a : App) (p : Nat × Nat) :
    (a.handle_mouse_moved p).state = a.state := by
  unfold App.handle_mouse_moved
  split_ifs <;> rfl

set_option maxHeartbeats 1600000 in
theorem handleEventsState (a : App) (m : InputMessage) :
    (a.handle_events m).state = if m = .Quit then AppState.Exiting else a.state := by
  cases m with
  | KeyPress code =>
    rw [if_neg (by simp)]
    show (a.handle_key code).state = a.state
    simp only [App.handle_key, apply_ite (fun x : App => x.state), scrollRightState,
      scrollLeftState, scrollDownState, scrollUpState, toggleSortState, App.next_tab,
      App.prev_tab, ite_self]
  | MouseScroll d =>
    rw [if_neg (by simp)]
    cases d with
    | Up => exact scrollUpState a
    | Down => exact scrollDownState a
    | Left => exact scrollLeftState a
    | Right => exact scrollRightState a
  | MouseMoved p =>
    rw [if_neg (by simp)]
    exact mouseMovedState a p
  | Quit => rfl

theorem drawState (a : App) (fd : FrameData) : (a.draw fd).state = a.state := rfl

theorem runLoopExit (a : App) (l : List LoopEvent) (h : ¬a.state = AppState.Running) :
    a.runLoop l = a := by
  cases l with
  | nil => rfl
  | cons e rest =>
    unfold App.runLoop
    rw [if_neg h]

/-- C7: a Quit message moves the state from Running to Exiting, no
transition (input handling or a redraw) ever leaves Exiting, and once the
dispatcher has handled a Quit the loop exits before servicing any further
event: the remaining event list causes no further mutation. -/
theorem claim_C7_quit_terminal :
    ∀ (a : App) (m : InputMessage) (fd : FrameData) (rest : List LoopEvent),
      (a.state = .Running → (a.handle_events .Quit).state = .Exiting) ∧
      (a.state = .Exiting →
        (a.handle_events m).state = .Exiting ∧ (a.draw fd).state = .Exiting) ∧
      (a.state = .Running → a.runLoop (.message .Quit :: rest) = a.handle_events .Quit) := by
  intro a m fd rest
  refine ⟨fun _ => rfl, ?_, ?_⟩
  · intro h
    constructor
    · rw [handleEventsState]
      split
      · rfl
      · exact h
    · rw [drawState]; exact h
  · intro h
    have hq : (a.handle_events .Quit).state = AppState.Exiting := rfl
    unfold App.runLoop
    rw [if_pos h]
    exact runLoopExit _ rest (by rw [hq]; simp)

/-- Witness for C7 on the freshly created app and an arbitrary tail. -/
theorem claim_C7_quit_terminal_witness :
    ((App.new.handle_events .Quit).state = .Exiting) ∧
    (App.new.runLoop [.message .Quit, .refresh, .message (.KeyPress .tab)] =
      App.new.handle_events .Quit) ∧
    (((App.new.handle_events .Quit).handle_events (.KeyPress .tab)).state = .Exiting) := by
  have h1 := claim_C7_quit_terminal App.new (.KeyPress .tab) ⟨AppLayout.empty, 0, 0, 0, 0, 0⟩
    [.refresh, .message (.KeyPress .tab)]
  have h2 := claim_C7_quit_terminal (App.new.handle_events .Quit) (.KeyPress .tab)
    ⟨AppLayout.empty, 0, 0, 0, 0, 0⟩ []
  exact ⟨h1.1 rfl, h1.2.2 rfl, (h2.2.1 rfl).1⟩

/-- The input messages whose handling performs a vertical scroll
(`scroll_down`/`scroll_up`): the `j`/`k`/down/up keys and the vertical
mouse wheel. -/
def isVerticalScrollMsg : InputMessage → Bool
  | .KeyPress code =>
    decide (code = .char 'j' ∨ code = .down ∨ code = .char 'k' ∨ code = .up)
  | .MouseScroll d => decide (d = .Up ∨ d = .Down)
  | _ => false

theorem isDisksIff (t : SelectedTab) : t.is_disks = true ↔ t = .Disks := by
  cases t <;> simp [SelectedTab.is_disks]

theorem scrollRightDisks (a : App) :
    a.scroll_right.disks_scrollbar_state = a.disks_scrollbar_state := by
  unfold App.scroll_right; split <;> rfl

theorem scrollLeftDisks (a : App) :
    a.scroll_left.disks_scrollbar_state = a.disks_scrollbar_state := by
  unfold App.scroll_left; split <;> rfl

theorem scrollDownDisks (a : App) (h : ¬a.selected_tab = .Disks) :
    a.scroll_down.disks_scrollbar_state = a.disks_scrollbar_state := by
  unfold App.scroll_down
  split
  · rfl
  · split
    · rename_i h2
      exact absurd ((isDisksIff _).mp h2) h
    · split <;> rfl

theorem scrollUpDisks (a : App) (h : ¬a.selected_tab = .Disks) :
    a.scroll_up.disks_scrollbar_state = a.disks_scrollbar_state := by
  unfold App.scroll_up
  split
  · rfl
  · split
    · rename_i h2
      exact absurd ((isDisksIff _).mp h2) h
    · split <;> rfl

theorem toggleSortDisks (a : App) (c : ProcessColumn) :
    (a.toggle_sort_column c).disks_scrollbar_state = a.disks_scrollbar_state := by
  unfold App.toggle_sort_column
  split
  · split
    · split <;> rfl
    · rfl
  · rfl

theorem mouseMovedDisks (a : App) (p : Nat × Nat) :
    (a.handle_mouse_moved p).disks_scrollbar_state = a.disks_scrollbar_state := by
  unfold App.handle_mouse_moved
  split_ifs <;> rfl

/-- C10: a disks-panel render never writes the disks viewport's
scrollbar-thumb indicator (its `position` field is untouched) and instead
applies the position update to the processes panel's indicator state;
handling an input message changes the disks thumb indicator only when the
Disks panel is focused and the message is a vertical scroll, and a full
frame redraw never changes it; concretely, a disks render with the
processes viewport at `pos = 3`, `maxScroll = 5` moves the processes
indicator to 3. -/
theorem claim_C10_disks_render_indicator :
    ∀ (a : App) (new_max : Nat) (fd : FrameData) (m : InputMessage),
      ((a.render_disks new_max).disks_scrollbar_state.state.position =
        a.disks_scrollbar_state.state.position) ∧
      ((a.render_disks new_max).processes_scrollbar_state =
        a.processes_scrollbar_state.current_pos_scroll_update) ∧
      ((a.draw fd).disks_scrollbar_state.state.position =
        a.disks_scrollbar_state.state.position) ∧
      (¬(a.selected_tab = .Disks ∧ isVerticalScrollMsg m = true) →
        (a.handle_events m).disks_scrollbar_state.state.position =
          a.disks_scrollbar_state.state.position) ∧
      ((App.render_disks { App.new with processes_scrollbar_state := ⟨⟨0, 0⟩, 3, 5⟩ }
          2).processes_scrollbar_state.state.position = 3) := by
  intro a new_max fd m
  refine ⟨rfl, rfl, rfl, ?_, by decide⟩
  intro hno
  by_cases hd : a.selected_tab = .Disks
  · have hf : isVerticalScrollMsg m = false := by
      rcases hb : isVerticalScrollMsg m
      · rfl
      · exact absurd ⟨hd, hb⟩ hno
    cases m with
    | KeyPress code =>
      have hf2 : ¬(code = KeyCode.char 'j' ∨ code = KeyCode.down ∨
          code = KeyCode.char 'k' ∨ code = KeyCode.up) := by
        simpa [isVerticalScrollMsg] using hf
      push_neg at hf2
      obtain ⟨h1, h2, h3, h4⟩ := hf2
      show (a.handle_key code).disks_scrollbar_state.state.position = _
      simp only [App.handle_key,
        apply_ite (fun x : App => x.disks_scrollbar_state.state.position),
        scrollRightDisks, scrollLeftDisks, toggleSortDisks, App.next_tab, App.prev_tab,
        h1, h2, h3, h4, or_self, if_false, ite_self]
    | MouseScroll d =>
      cases d with
      | Up => simp [isVerticalScrollMsg] at hf
      | Down => simp [isVerticalScrollMsg] at hf
      | Left =>
        show a.scroll_left.disks_scrollbar_state.state.position = _
        rw [scrollLeftDisks]
      | Right =>
        show a.scroll_right.disks_scrollbar_state.state.position = _
        rw [scrollRightDisks]
    | MouseMoved p =>
      show (a.handle_mouse_moved p).disks_scrollbar_state.state.position = _
      rw [mouseMovedDisks]
    | Quit => rfl
  · cases m with
    | KeyPress code =>
      show (a.handle_key code).disks_scrollbar_state.state.position = _
      simp only [App.handle_key,
        apply_ite (fun x : App => x.disks_scrollbar_state.state.position),
        scrollRightDisks, scrollLeftDisks, scrollDownDisks a hd, scrollUpDisks a hd,
        toggleSortDisks, App.next_tab, App.prev_tab, ite_self]
    | MouseScroll d =>
      cases d with
      | Up =>
        show a.scroll_up.disks_scrollbar_state.state.position = _
        rw [scrollUpDisks a hd]
      | Down =>
        show a.scroll_down.disks_scrollbar_state.state.position = _
        rw [scrollDownDisks a hd]
      | Left =>
        show a.scroll_left.disks_scrollbar_state.state.position = _
        rw [scrollLeftDisks]
      | Right =>
        show a.scroll_right.disks_scrollbar_state.state.position = _
        rw [scrollRightDisks]
    | MouseMoved p =>
      show (a.handle_mouse_moved p).disks_scrollbar_state.state.position = _
      rw [mouseMovedDisks]
    | Quit => rfl

/-- Witness for C10 on a message that is not a disks scroll. -/
theorem claim_C10_disks_render_indicator_witness :
    (App.new.handle_events (.KeyPress .tab)).disks_scrollbar_state.state.position =
      App.new.disks_scrollbar_state.state.position := by
  exact (claim_C10_disks_render_indicator App.new 0 ⟨AppLayout.empty, 0, 0, 0, 0, 0⟩
    (.KeyPress .tab)).2.2.2.1 (by decide)

theorem traverseOptionIsSome {α β : Type} (f : α → Option β) (l : List α)
    (h : ∀ a ∈ l, (f a).isSome = true) : (traverseOption f l).isSome = true := by
  induction l with
  | nil => rfl
  | cons x xs ih =>
    obtain ⟨b, hb⟩ := Option.isSome_iff_exists.mp (h x (List.mem_cons_self x xs))
    obtain ⟨r, hr⟩ :=
      Option.isSome_iff_exists.mp (ih fun a ha => h a (List.mem_cons_of_mem _ ha))
    simp [traverseOption, hb, hr]

theorem traverseOptionMem {α β : Type} (f : α → Option β) (l : List α) (r : List β)
    (h : traverseOption f l = some r) : ∀ b ∈ r, ∃ a ∈ l, f a = some b := by
  induction l generalizing r with
  | nil =>
    unfold traverseOption at h
    cases h
    intro b hb
    simp at hb
  | cons x xs ih =>
    unfold traverseOption at h
    cases hfx : f x with
    | none => rw [hfx] at h; simp at h
    | some b0 =>
      rw [hfx] at h
      cases hrec : traverseOption f xs with
      | none => rw [hrec] at h; simp at h
      | some rs =>
        rw [hrec] at h
        simp at h
        subst h
        intro b hb
        rcases List.mem_cons.mp hb with rfl | hb2
        · exact ⟨x, List.mem_cons_self x xs, hfx⟩
        · obtain ⟨a, ha, hfa⟩ := ih rs hrec b hb2
          exact ⟨a, List.mem_cons_of_mem _ ha, hfa⟩

/-- C1 as stated fails at small panel heights: the `visible_lines`
subtraction `layout_height - 2` underflows for `layout_height < 2`, so
at `layout_height = 0` none of the three builders completes (in the
embedding each returns `none`, mirroring the aborted computation). -/
theorem claim_C1_counterexample :
    create_processes_table [] 1 0 0 false none = none ∧
    create_disks_widget [] 0 0 false = none ∧
    create_networks_widget [] 0 0 false = none := by
  refine ⟨rfl, rfl, rfl⟩

theorem foldNetTotalsIsSome (stats : TotalNetworkStats) (l : List NetworkInfo)
    (h1 : stats.transmited_bytes + (l.map NetworkInfo.transmitted).sum < 18446744073709551616)
    (h2 : stats.received_bytes + (l.map NetworkInfo.received).sum < 18446744073709551616)
    (h3 : stats.transmited_packets + (l.map NetworkInfo.packets_transmitted).sum <
      18446744073709551616)
    (h4 : stats.received_packets + (l.map NetworkInfo.packets_received).sum <
      18446744073709551616) :
    (foldNetTotals stats l).isSome = true := by
  induction l generalizing stats with
  | nil => rfl
  | cons d rest ih =>
    simp only [List.map_cons, List.sum_cons] at h1 h2 h3 h4
    have ha : checkedAdd64 stats.transmited_bytes d.transmitted =
        some (stats.transmited_bytes + d.transmitted) := by
      unfold checkedAdd64; rw [if_pos (by omega)]
    have hb : checkedAdd64 stats.received_bytes d.received =
        some (stats.received_bytes + d.received) := by
      unfold checkedAdd64; rw [if_pos (by omega)]
    have hc : checkedAdd64 stats.transmited_packets d.packets_transmitted =
        some (stats.transmited_packets + d.packets_transmitted) := by
      unfold checkedAdd64; rw [if_pos (by omega)]
    have hd2 : checkedAdd64 stats.received_packets d.packets_received =
        some (stats.received_packets + d.packets_received) := by
      unfold checkedAdd64; rw [if_pos (by omega)]
    unfold foldNetTotals
    simp only [ha, hb, hc, hd2, Option.some_bind]
    apply ih <;> dsimp only <;> omega

/-- C1 amended: the three widget builders are total for every
`layout_height ≥ 2` (the only heights at which `visible_lines =
layout_height - 2` is defined), every scroll position, every sort state,
and every metrics snapshot whose counters stay inside the integer
domains the code assumes: each disk reports `available_space ≤
total_space` (else the disks' `used` subtraction underflows) and the
network byte and packet counters sum below `2 ^ 64` (else a comparator
sum or a totals-fold `+=` overflows). -/
theorem claim_C1_amended :
    ∀ (layout_height scroll_position : Nat) (is_selected : Bool)
      (sort_by : Option (ProcessColumn × SortDirection))
      (procs : List ProcessInfo) (total_memory : Nat)
      (disks : List DiskInfo) (networks : List NetworkInfo),
      2 ≤ layout_height →
      (∀ d ∈ disks, d.available_space ≤ d.total_space) →
      (networks.map NetworkInfo.transmitted).sum + (networks.map NetworkInfo.received).sum <
        18446744073709551616 →
      (networks.map NetworkInfo.packets_transmitted).sum < 18446744073709551616 →
      (networks.map NetworkInfo.packets_received).sum < 18446744073709551616 →
      (create_processes_table procs total_memory layout_height scroll_position
        is_selected sort_by).isSome = true ∧
      (create_disks_widget disks layout_height scroll_position is_selected).isSome = true ∧
      (create_networks_widget networks layout_height scroll_position is_selected).isSome = true := by
  intro lh sp sel sb procs tm disks nets hlh hwf hnb hnp1 hnp2
  have hsub : checkedSub lh 2 = some (lh - 2) := by unfold checkedSub; rw [if_pos hlh]
  refine ⟨?_, ?_, ?_⟩
  · unfold create_processes_table
    rw [hsub]
    rfl
  · have h1 : (traverseOption (fun d => (diskUsed d).map fun u => (d, u)) disks).isSome = true := by
      refine traverseOptionIsSome _ _ fun d hd => ?_
      have : diskUsed d = some (d.total_space - d.available_space) := by
        unfold diskUsed checkedSub
        rw [if_pos (hwf d hd)]
      simp [this]
    obtain ⟨w, hw⟩ := Option.isSome_iff_exists.mp h1
    have h2 : (traverseOption (fun du => diskLine du.1 du.2.1)
        ((w.mergeSort fun a b => decide (b.2 ≤ a.2)).enum)).isSome = true := by
      refine traverseOptionIsSome _ _ fun du hdu => ?_
      obtain ⟨i, x⟩ := du
      have hx : x ∈ w.mergeSort fun a b => decide (b.2 ≤ a.2) :=
        List.snd_mem_of_mem_enum hdu
      have hxw : x ∈ w := List.mem_mergeSort.mp hx
      obtain ⟨d0, _, hfd0⟩ := traverseOptionMem _ disks w hw x hxw
      cases hdu0 : diskUsed d0 with
      | none => rw [hdu0] at hfd0; simp at hfd0
      | some u0 =>
        rw [hdu0, Option.map_some'] at hfd0
        injection hfd0 with hfd1
        subst hfd1
        simp [diskLine, hdu0]
    obtain ⟨ls, hls⟩ := Option.isSome_iff_exists.mp h2
    unfold create_disks_widget
    simp [hsub, hw, hls]
  · have hcomb : (traverseOption
        (fun n => (checkedAdd64 n.transmitted n.received).map fun c => (n, c))
        nets).isSome = true := by
      refine traverseOptionIsSome _ _ fun n hn => ?_
      have htx : n.transmitted ≤ (nets.map NetworkInfo.transmitted).sum :=
        List.single_le_sum (fun x _ => Nat.zero_le x) _ (List.mem_map_of_mem _ hn)
      have hrx : n.received ≤ (nets.map NetworkInfo.received).sum :=
        List.single_le_sum (fun x _ => Nat.zero_le x) _ (List.mem_map_of_mem _ hn)
      have hck : checkedAdd64 n.transmitted n.received =
          some (n.transmitted + n.received) := by
        unfold checkedAdd64; rw [if_pos (by omega)]
      simp [hck]
    obtain ⟨wc, hwc⟩ := Option.isSome_iff_exists.mp hcomb
    have hfold : (foldNetTotals ⟨0, 0, 0, 0⟩ nets).isSome = true := by
      apply foldNetTotalsIsSome <;> dsimp only <;> omega
    obtain ⟨ts, hts⟩ := Option.isSome_iff_exists.mp hfold
    unfold create_networks_widget
    simp [hsub, hwc, hts]

/-- Witness for C1 at `layout_height = 4` with a one-element snapshot of
each kind. -/
theorem claim_C1_amended_witness :
    (create_processes_table [⟨some "root", 1, none, 5, 100, 10, 20, "init"⟩] 1 4 1 false
      none).isSome = true ∧
    (create_disks_widget [⟨"disk0", 10, 4⟩] 4 1 false).isSome = true ∧
    (create_networks_widget [⟨"eth0", 1, 2, 3, 4, "aa:bb"⟩] 4 1 false).isSome = true := by
  exact claim_C1_amended 4 1 false none [⟨some "root", 1, none, 5, 100, 10, 20, "init"⟩] 1
    [⟨"disk0", 10, 4⟩] [⟨"eth0", 1, 2, 3, 4, "aa:bb"⟩] (by decide) (by decide) (by decide)
    (by decide) (by decide)

/-- Witness for C8 on the rectangle at (5, 5) of width 3 and height 2:
the top-left corner is inside and the point past the right edge is not. -/
theorem claim_C8_amended_witness :
    is_within_rect (5, 5) ⟨5, 5, 3, 2⟩ = true ∧
    is_within_rect (5 + 3, 5) ⟨5, 5, 3, 2⟩ = false := by
  have h := claim_C8_amended 5 5 ⟨5, 5, 3, 2⟩ (by decide) (by decide)
  exact ⟨h.2.1 (by decide) (by decide), h.2.2.1⟩
